import Mathlib

/-!
Verification of the County Health Data API (`api/index.py`).

The development embeds the request-validation and two-step lookup pipeline of
the `county_data` endpoint: JSON payloads, Python truthiness, the `validate_zip`
and `validate_measure` checks, the parameterised two-step SQLite lookup
(`query_county_health_data`), the error taxonomy of the handler, and the
route/method dispatch of the surrounding app.  All table columns are created as
TEXT by `csv_to_sqlite.py`, so rows are modelled with `String` fields.
-/

/-- JSON values, as delivered by the HTTP layer after parsing the request body.
Objects are association lists; Python dictionaries produced by JSON parsing have
unique keys, and key lookup takes the first match. -/
inductive JVal where
  | jstr (s : String)
  | jnum (n : Int)
  | jbool (b : Bool)
  | jnull
  | jarr (xs : List JVal)
  | jobj (fields : List (String × JVal))

/-- Python truthiness of a JSON value (`if not x` in the handler): empty
strings, zero, `False`, `None`, and empty containers are falsy. -/
def truthy : JVal → Bool
  | .jstr s => s != ""
  | .jnum n => n != 0
  | .jbool b => b
  | .jnull => false
  | .jarr xs => !xs.isEmpty
  | .jobj fs => !fs.isEmpty

/-- Truthiness of `request.json.get(k)`: Python `None` (an absent key) is
falsy. -/
def truthyOpt : Option JVal → Bool
  | none => false
  | some v => truthy v

/-- A row of the `zip_county` table (both columns created as TEXT). -/
structure ZipRow where
  zip : String
  county_code : String
deriving DecidableEq, Repr

/-- A row of the `county_health_rankings` table, with the column names used by
the SELECT in `query_county_health_data` (all columns TEXT). -/
structure HealthRow where
  state : String
  county : String
  state_code : String
  county_code : String
  year_span : String
  measure_name : String
  measure_id : String
  numerator : String
  denominator : String
  raw_value : String
  confidence_interval_lower_bound : String
  confidence_interval_upper_bound : String
  data_release_year : String
  fipscode : String
deriving DecidableEq, Repr

/-- The two reference tables, in storage order. -/
structure DB where
  zip_county : List ZipRow
  county_health_rankings : List HealthRow
deriving DecidableEq, Repr

/-- Failure of the underlying store, as raised by `query_county_health_data`:
`fileNotFound` when the database file is absent and cannot be recreated
(`FileNotFoundError`), `sqliteError` for `sqlite3.Error`. -/
inductive StoreFailure where
  | fileNotFound
  | sqliteError
deriving DecidableEq, Repr

/-- The set `VALID_MEASURES` of `api/index.py`. -/
def VALID_MEASURES : List String :=
  ["Violent crime rate", "Unemployment", "Children in poverty",
   "Diabetic screening", "Mammography screening", "Preventable hospital stays",
   "Uninsured", "Sexually transmitted infections", "Physical inactivity",
   "Adult obesity", "Premature Death", "Daily fine particulate matter"]

/-- Python `str.isdigit` on a single character: true for characters with the
Unicode digit property, not only ASCII `0`-`9`.  The full repertoire is given
by the Unicode tables; this model covers the ASCII digits together with the
Latin-1 superscripts, the superscript and subscript blocks, Arabic-Indic,
extended Arabic-Indic, Devanagari, Bengali, Thai and fullwidth digits, which
are representative of that repertoire. -/
def pyIsDigitChar (c : Char) : Bool :=
  (48 ≤ c.toNat && c.toNat ≤ 57)
  || c.toNat == 0xB2 || c.toNat == 0xB3 || c.toNat == 0xB9
  || c.toNat == 0x2070 || (0x2074 ≤ c.toNat && c.toNat ≤ 0x2079)
  || (0x2080 ≤ c.toNat && c.toNat ≤ 0x2089)
  || (0x660 ≤ c.toNat && c.toNat ≤ 0x669)
  || (0x6F0 ≤ c.toNat && c.toNat ≤ 0x6F9)
  || (0x966 ≤ c.toNat && c.toNat ≤ 0x96F)
  || (0x9E6 ≤ c.toNat && c.toNat ≤ 0x9EF)
  || (0xE50 ≤ c.toNat && c.toNat ≤ 0xE59)
  || (0xFF10 ≤ c.toNat && c.toNat ≤ 0xFF19)

/-- Python `str.isdigit`: non-empty and every character a digit. -/
def pyStrIsDigit (s : String) : Bool :=
  !s.data.isEmpty && s.data.all pyIsDigitChar

/-- `validate_zip` of `api/index.py`: `zip_code.isdigit() and len(zip_code) == 5`. -/
def validate_zip (zip_code : String) : Bool :=
  pyStrIsDigit zip_code && zip_code.length == 5

/-- `validate_measure` of `api/index.py`: `measure in VALID_MEASURES`. -/
def validate_measure (measure : String) : Bool :=
  VALID_MEASURES.contains measure

/-- `query_county_health_data` of `api/index.py`, with an available store: the
first `zip_county` row matching the zip (`LIMIT 1`) supplies the county code;
if none matches the function returns the empty list; otherwise all
`county_health_rankings` rows with that `fipscode` and the given
`Measure_name` are returned in storage order.  Both lookups pass the
user-supplied values as bound parameters compared against whole column
values. -/
def query_county_health_data (db : DB) (zip_code measure_name : String) :
    List HealthRow :=
  match db.zip_county.find? (fun r => r.zip == zip_code) with
  | none => []
  | some r =>
      db.county_health_rankings.filter
        (fun h => h.fipscode == r.county_code && h.measure_name == measure_name)

/-- An HTTP response: status code and JSON body (the argument of `jsonify`). -/
structure Response where
  status : Nat
  body : JVal

/-- The two-field error body `{"error": msg, "status": code}`. -/
def errBody (msg : String) (code : Nat) : JVal :=
  .jobj [("error", .jstr msg), ("status", .jnum code)]

def teapotResp : Response := ⟨418, errBody "I\x27m a teapot" 418⟩

def malformedResp : Response := ⟨400, errBody "Request must contain JSON data" 400⟩

def missingZipResp : Response := ⟨400, errBody "Missing required parameter: zip" 400⟩

def missingMeasureResp : Response :=
  ⟨400, errBody "Missing required parameter: measure_name" 400⟩

def invalidZipResp : Response :=
  ⟨404, errBody "Invalid zip code format. Must be 5 digits." 404⟩

def invalidMeasureResp : Response := ⟨404, errBody "Invalid measure_name" 404⟩

def dbNotFoundResp : Response := ⟨500, errBody "Database not found" 500⟩

def dbErrorResp : Response := ⟨500, errBody "Database error" 500⟩

def noDataResp : Response :=
  ⟨404, errBody "No data found for the given zip code and measure" 404⟩

def internalErrorResp : Response := ⟨500, errBody "Internal server error" 500⟩

def endpointNotFoundResp : Response := ⟨404, errBody "Endpoint not found" 404⟩

/-- The 405 handler of `api/index.py` replies with HTTP 404 and this body. -/
def methodNotAllowedResp : Response := ⟨404, errBody "Method not allowed" 404⟩

/-- The JSON array produced by `jsonify(results)` on success. -/
def healthRowJson (h : HealthRow) : JVal :=
  .jobj [("state", .jstr h.state), ("county", .jstr h.county),
         ("state_code", .jstr h.state_code), ("county_code", .jstr h.county_code),
         ("year_span", .jstr h.year_span), ("measure_name", .jstr h.measure_name),
         ("measure_id", .jstr h.measure_id), ("numerator", .jstr h.numerator),
         ("denominator", .jstr h.denominator), ("raw_value", .jstr h.raw_value),
         ("confidence_interval_lower_bound", .jstr h.confidence_interval_lower_bound),
         ("confidence_interval_upper_bound", .jstr h.confidence_interval_upper_bound),
         ("data_release_year", .jstr h.data_release_year),
         ("fipscode", .jstr h.fipscode)]

/-- The parameter-extraction and lookup part of the `county_data` handler
(lines 294 to 328 of `api/index.py`), reached with a truthy JSON object body.
Every Python exception raised here is caught by the outer
`except Exception` of the handler, which replies with the 500
internal-error body; the branches that model a raise say so in a comment. -/
def handle_params (fields : List (String × JVal))
    (store : Except StoreFailure DB) : Response :=
  let zip_code := fields.lookup "zip"
  let measure_val := fields.lookup "measure_name"
  if !truthyOpt zip_code then missingZipResp
  else if !truthyOpt measure_val then missingMeasureResp
  else
    match zip_code with
    | some (.jstr z) =>
        if !validate_zip z then invalidZipResp
        else
          match measure_val with
          | some (.jstr m) =>
              if !validate_measure m then invalidMeasureResp
              else
                match store with
                | .error .fileNotFound => dbNotFoundResp
                | .error .sqliteError => dbErrorResp
                | .ok db =>
                    let results := query_county_health_data db z m
                    if results.isEmpty then noDataResp
                    else ⟨200, .jarr (results.map healthRowJson)⟩
          -- a list or dict measure is unhashable: `measure in VALID_MEASURES`
          -- raises TypeError, caught by the outer handler
          | some (.jarr _) => internalErrorResp
          | some (.jobj _) => internalErrorResp
          -- numbers and booleans are hashable and are simply not members
          | _ => invalidMeasureResp
    -- `zip_code.isdigit()` on a non-string raises AttributeError,
    -- caught by the outer handler
    | _ => internalErrorResp

/-- The `county_data` handler of `api/index.py` for a POST to `/county_data`.
`body` is the parsed JSON body, `none` when the body is absent or unparseable
(modelled from the spec: the HTTP layer then hands the handler a falsy
`request.json`).  The teapot check runs first but its conjunction starts with
the truthiness of `request.json`, so a falsy body always reaches the
`Request must contain JSON data` reply; a truthy body that is not a JSON
object makes `request.json.get` (or the membership or subscript on it) raise,
and the outer `except Exception` replies with the 500 internal-error body. -/
def county_data (body : Option JVal) (store : Except StoreFailure DB) : Response :=
  match body with
  | none => malformedResp
  | some (.jobj fields) =>
      if fields.isEmpty then malformedResp
      else
        match fields.lookup "coffee" with
        | some (.jstr "teapot") => teapotResp
        | _ => handle_params fields store
  | some v => if truthy v then internalErrorResp else malformedResp

/-- The root route of `api/index.py` (`GET /`). -/
def rootResp : Response :=
  ⟨200, .jobj [("message", .jstr "County Health Data API is running"),
               ("endpoints", .jobj
                 [("POST /county_data", .jstr "Get health data for ZIP code and measure")]),
               ("status", .jstr "ok")]⟩

/-- Route and method dispatch of the app: `/county_data` accepts only POST,
`/` only GET; an unknown path goes to the 404 handler, a known path with the
wrong method goes to the 405 handler (modelled from the spec: the automatic
OPTIONS and HEAD handling of the HTTP framework is outside the modelled
surface). -/
def app_dispatch (method path : String) (body : Option JVal)
    (store : Except StoreFailure DB) : Response :=
  if path == "/county_data" then
    if method == "POST" then county_data body store else methodNotAllowedResp
  else if path == "/" then
    if method == "GET" then rootResp else methodNotAllowedResp
  else endpointNotFoundResp

/-- One request step of the server: the handler performs only SELECT reads and
closes its connection on every path, so it hands the store on unchanged. -/
def county_data_step (body : Option JVal) (store : Except StoreFailure DB) :
    Response × Except StoreFailure DB :=
  (county_data body store, store)

/-- Sequential service of a list of request bodies, threading the store
through `county_data_step`. -/
def serve (store : Except StoreFailure DB) : List (Option JVal) → List Response
  | [] => []
  | b :: rest =>
      let p := county_data_step b store
      p.1 :: serve p.2 rest

/-- A sample store used by concrete witnesses: one ZIP mapping and two health
rows for the mapped county. -/
def sampleHealthRow : HealthRow :=
  ⟨"MA", "Middlesex County", "25", "017", "2020-2022", "Adult obesity",
   "11", "300000", "1200000", "0.25", "0.24", "0.26", "2024", "25017"⟩

def sampleHealthRow2 : HealthRow :=
  ⟨"MA", "Middlesex County", "25", "017", "2019-2021", "Adult obesity",
   "11", "290000", "1190000", "0.24", "0.23", "0.25", "2023", "25017"⟩

def sampleDB : DB :=
  ⟨[⟨"02138", "25017"⟩], [sampleHealthRow, sampleHealthRow2]⟩

/-- ASCII decimal digit, the character class of the regex `[0-9]`. -/
def isAsciiDigit (c : Char) : Bool :=
  48 ≤ c.toNat && c.toNat ≤ 57

/-- SQL metacharacters and statement separators: quote, double quote,
semicolon, dash (comment introducer), backslash, percent. -/
def sqlMetaChar (c : Char) : Bool :=
  c == '\x27' || c == '"' || c == ';' || c == '-' || c == '\\' || c == '%'

/-- A string containing at least one SQL metacharacter. -/
def hasSqlMeta (s : String) : Bool :=
  s.data.any sqlMetaChar

/-- A health row attached to county code `AAA`, for the duplicate-zip store. -/
def dupHealthRowA : HealthRow :=
  ⟨"ST", "First County", "01", "001", "2020-2022", "Adult obesity",
   "11", "10", "100", "0.10", "0.09", "0.11", "2024", "AAA"⟩

/-- A health row attached to county code `BBB`, for the duplicate-zip store. -/
def dupHealthRowB : HealthRow :=
  ⟨"ST", "Second County", "01", "002", "2020-2022", "Adult obesity",
   "11", "20", "100", "0.20", "0.19", "0.21", "2024", "BBB"⟩

/-- A store in which the same ZIP is mapped to two different counties. -/
def dupDB : DB :=
  ⟨[⟨"11111", "AAA"⟩, ⟨"11111", "BBB"⟩], [dupHealthRowA, dupHealthRowB]⟩

/-- A payload whose zip field carries an SQL injection attempt. -/
def injFields : List (String × JVal) :=
  [("zip", .jstr "; DROP TABLE zip_county; --"),
   ("measure_name", .jstr "Adult obesity")]

/-! ## Helper lemmas -/

theorem lookup_isEmpty_false {α : Type} {k : String} {v : α} {l : List (String × α)}
    (h : l.lookup k = some v) : l.isEmpty = false := by
  cases l with
  | nil => simp [List.lookup] at h
  | cons a t => rfl

theorem isAsciiDigit_pyIsDigitChar {c : Char} (h : isAsciiDigit c = true) :
    pyIsDigitChar c = true := by
  simp only [isAsciiDigit, Bool.and_eq_true, decide_eq_true_eq] at h
  simp only [pyIsDigitChar, Bool.or_eq_true, Bool.and_eq_true, decide_eq_true_eq,
    beq_iff_eq]
  omega

theorem pyIsDigitChar_ascii {c : Char} (hlt : c.toNat < 128)
    (h : isAsciiDigit c = false) : pyIsDigitChar c = false := by
  simp only [isAsciiDigit, Bool.and_eq_false_iff, decide_eq_false_iff_not, not_le] at h
  simp only [pyIsDigitChar, Bool.or_eq_false_iff, Bool.and_eq_false_iff,
    decide_eq_false_iff_not, not_le, beq_eq_false_iff_ne, ne_eq]
  omega

theorem sqlMetaChar_not_digit {c : Char} (h : sqlMetaChar c = true) :
    pyIsDigitChar c = false := by
  simp only [sqlMetaChar, Bool.or_eq_true, beq_iff_eq] at h
  rcases h with ((((h | h) | h) | h) | h) | h <;> subst h <;> decide

theorem validate_zip_of_meta {z : String} (h : hasSqlMeta z = true) :
    validate_zip z = false := by
  simp only [hasSqlMeta, List.any_eq_true] at h
  obtain ⟨c, hc, hmeta⟩ := h
  have hdig : z.data.all pyIsDigitChar = false := by
    rw [Bool.eq_false_iff]
    intro hall
    rw [List.all_eq_true] at hall
    have := hall c hc
    rw [sqlMetaChar_not_digit hmeta] at this
    exact Bool.false_ne_true this
  simp [validate_zip, pyStrIsDigit, hdig]

theorem valid_measures_no_meta : ∀ m ∈ VALID_MEASURES, hasSqlMeta m = false := by
  decide

theorem valid_measures_ne_empty : ∀ m ∈ VALID_MEASURES, (m != "") = true := by
  decide

theorem validate_measure_mem {m : String} (h : validate_measure m = true) :
    m ∈ VALID_MEASURES := by
  simpa [validate_measure] using h

theorem validate_zip_shape {z : String} (h : validate_zip z = true) :
    z.length = 5 ∧ (z != "") = true := by
  by_cases hz : z = ""
  · subst hz
    simp [validate_zip, pyStrIsDigit] at h
  · simp only [validate_zip, Bool.and_eq_true, beq_iff_eq] at h
    exact ⟨h.2, by simp [bne_iff_ne, hz]⟩

theorem find?_eq_head?_filter {α : Type} (p : α → Bool) (l : List α) :
    l.find? p = (l.filter p).head? := by
  induction l with
  | nil => rfl
  | cons a t ih =>
    cases hp : p a
    · rw [List.find?_cons_of_neg _ (by simp [hp]), List.filter_cons_of_neg (by simp [hp]), ih]
    · rw [List.find?_cons_of_pos _ hp, List.filter_cons_of_pos (by simp [hp]), List.head?_cons]

theorem county_data_coffee {fields : List (String × JVal)}
    {store : Except StoreFailure DB}
    (h : fields.lookup "coffee" = some (.jstr "teapot")) :
    county_data (some (.jobj fields)) store = teapotResp := by
  have hne : fields.isEmpty = false := lookup_isEmpty_false h
  simp [county_data, hne, h]

theorem county_data_no_coffee {fields : List (String × JVal)}
    {store : Except StoreFailure DB} (hne : fields.isEmpty = false)
    (h : fields.lookup "coffee" ≠ some (.jstr "teapot")) :
    county_data (some (.jobj fields)) store = handle_params fields store := by
  have step : county_data (some (.jobj fields)) store
      = (match fields.lookup "coffee" with
         | some (.jstr "teapot") => teapotResp
         | _ => handle_params fields store) := by
    simp [county_data, hne]
  rw [step]
  split
  · rename_i heq
    exact absurd heq h
  · rfl

theorem handle_params_missing_zip {fields : List (String × JVal)}
    {store : Except StoreFailure DB}
    (h : truthyOpt (fields.lookup "zip") = false) :
    handle_params fields store = missingZipResp := by
  simp [handle_params, h]

theorem handle_params_missing_measure {fields : List (String × JVal)}
    {store : Except StoreFailure DB}
    (hz : truthyOpt (fields.lookup "zip") = true)
    (h : truthyOpt (fields.lookup "measure_name") = false) :
    handle_params fields store = missingMeasureResp := by
  simp [handle_params, hz, h]

theorem handle_params_zip_nonstring {fields : List (String × JVal)}
    {store : Except StoreFailure DB} {v : JVal}
    (hzv : fields.lookup "zip" = some v) (htr : truthy v = true)
    (hns : ∀ s, v ≠ JVal.jstr s)
    (hmt : truthyOpt (fields.lookup "measure_name") = true) :
    handle_params fields store = internalErrorResp := by
  rcases v with s | n | b | _ | xs | fs
  · exact absurd rfl (hns s)
  · have hz : truthyOpt (some (JVal.jnum n)) = true := by simpa [truthyOpt] using htr
    simp [handle_params, hzv, hz, hmt]
  · have hz : truthyOpt (some (JVal.jbool b)) = true := by simpa [truthyOpt] using htr
    simp [handle_params, hzv, hz, hmt]
  · simp [truthy] at htr
  · have hz : truthyOpt (some (JVal.jarr xs)) = true := by simpa [truthyOpt] using htr
    simp [handle_params, hzv, hz, hmt]
  · have hz : truthyOpt (some (JVal.jobj fs)) = true := by simpa [truthyOpt] using htr
    simp [handle_params, hzv, hz, hmt]

theorem handle_params_invalid_zip {fields : List (String × JVal)}
    {store : Except StoreFailure DB} {z : String}
    (hzs : fields.lookup "zip" = some (.jstr z)) (hzt : (z != "") = true)
    (hmt : truthyOpt (fields.lookup "measure_name") = true)
    (hbad : validate_zip z = false) :
    handle_params fields store = invalidZipResp := by
  have hz : truthyOpt (some (JVal.jstr z)) = true := by
    simpa [truthyOpt, truthy] using hzt
  simp [handle_params, hzs, hz, hmt, hbad]

theorem handle_params_invalid_measure {fields : List (String × JVal)}
    {store : Except StoreFailure DB} {z m : String}
    (hzs : fields.lookup "zip" = some (.jstr z)) (hok : validate_zip z = true)
    (hms : fields.lookup "measure_name" = some (.jstr m)) (hmt : (m != "") = true)
    (hbadm : validate_measure m = false) :
    handle_params fields store = invalidMeasureResp := by
  have hz : truthyOpt (some (JVal.jstr z)) = true := by
    simpa [truthyOpt, truthy] using (validate_zip_shape hok).2
  have hm : truthyOpt (some (JVal.jstr m)) = true := by
    simpa [truthyOpt, truthy] using hmt
  simp [handle_params, hzs, hms, hz, hm, hok, hbadm]

theorem handle_params_measure_nonstring {fields : List (String × JVal)}
    {store : Except StoreFailure DB} {z : String} {w : JVal}
    (hzs : fields.lookup "zip" = some (.jstr z)) (hok : validate_zip z = true)
    (hms : fields.lookup "measure_name" = some w) (hwt : truthy w = true)
    (hnum : (∃ n, w = JVal.jnum n) ∨ (∃ b, w = JVal.jbool b)) :
    handle_params fields store = invalidMeasureResp := by
  have hz : truthyOpt (some (JVal.jstr z)) = true := by
    simpa [truthyOpt, truthy] using (validate_zip_shape hok).2
  rcases hnum with ⟨n, rfl⟩ | ⟨b, rfl⟩
  · have hm : truthyOpt (some (JVal.jnum n)) = true := by simpa [truthyOpt] using hwt
    simp [handle_params, hzs, hms, hz, hm, hok]
  · have hm : truthyOpt (some (JVal.jbool b)) = true := by simpa [truthyOpt] using hwt
    simp [handle_params, hzs, hms, hz, hm, hok]

theorem handle_params_valid {fields : List (String × JVal)}
    {store : Except StoreFailure DB} {z m : String}
    (hzs : fields.lookup "zip" = some (.jstr z)) (hok : validate_zip z = true)
    (hms : fields.lookup "measure_name" = some (.jstr m))
    (hmok : validate_measure m = true) :
    handle_params fields store =
      match store with
      | .error .fileNotFound => dbNotFoundResp
      | .error .sqliteError => dbErrorResp
      | .ok db =>
          if (query_county_health_data db z m).isEmpty then noDataResp
          else ⟨200, .jarr ((query_county_health_data db z m).map healthRowJson)⟩ := by
  have hz : truthyOpt (some (JVal.jstr z)) = true := by
    simpa [truthyOpt, truthy] using (validate_zip_shape hok).2
  have hm : truthyOpt (some (JVal.jstr m)) = true := by
    simpa [truthyOpt, truthy] using valid_measures_ne_empty m (validate_measure_mem hmok)
  simp [handle_params, hzs, hms, hz, hm, hok, hmok]

theorem serve_getElem? (store : Except StoreFailure DB)
    (bodies : List (Option JVal)) (k : Nat) :
    (serve store bodies)[k]? = (bodies[k]?).map (fun b => county_data b store) := by
  induction bodies generalizing k with
  | nil => simp [serve]
  | cons b rest ih =>
    cases k with
    | zero => simp [serve, county_data_step]
    | succ k => simpa [serve, county_data_step] using ih k

theorem validate_zip_of_ascii5 {z : String} (hlen : z.length = 5)
    (hdig : z.data.all isAsciiDigit = true) : validate_zip z = true := by
  have hall : z.data.all pyIsDigitChar = true := by
    rw [List.all_eq_true] at hdig ⊢
    exact fun c hc => isAsciiDigit_pyIsDigitChar (hdig c hc)
  have hnempty : z.data.isEmpty = false := by
    cases hd : z.data with
    | nil =>
      exfalso
      have h0 : z.length = 0 := by simp [String.length, hd]
      omega
    | cons a t => rfl
  simp [validate_zip, pyStrIsDigit, hall, hnempty, hlen]

theorem validate_zip_false_of_len {z : String} (h : z.length ≠ 5) :
    validate_zip z = false := by
  simp [validate_zip, h]

theorem validate_zip_false_of_ascii_nondigit {z : String} {c : Char}
    (hc : c ∈ z.data) (hlt : c.toNat < 128) (hnd : isAsciiDigit c = false) :
    validate_zip z = false := by
  have hdig : z.data.all pyIsDigitChar = false := by
    rw [Bool.eq_false_iff]
    intro hall
    rw [List.all_eq_true] at hall
    have := hall c hc
    rw [pyIsDigitChar_ascii hlt hnd] at this
    exact Bool.false_ne_true this
  simp [validate_zip, pyStrIsDigit, hdig]

/-! ## Claim theorems -/

/-- Claim C4: a JSON-object payload containing a field `coffee` with value
exactly `"teapot"` is answered with HTTP 418 and body
`{"error": "I\x27m a teapot", "status": 418}`, before any other validation,
regardless of the `zip` and `measure_name` fields and of the store. -/
theorem c4_teapot_bypass (fields : List (String × JVal))
    (store : Except StoreFailure DB)
    (h : fields.lookup "coffee" = some (.jstr "teapot")) :
    county_data (some (.jobj fields)) store = ⟨418, errBody "I\x27m a teapot" 418⟩ :=
  county_data_coffee h

/-- Witness for C4: a payload with `coffee = "teapot"` and an invalid zip,
against an unavailable store, still gets the 418 reply. -/
theorem c4_teapot_bypass_witness :
    county_data (some (.jobj [("coffee", .jstr "teapot"), ("zip", .jstr "bad")]))
      (.error .fileNotFound) = ⟨418, errBody "I\x27m a teapot" 418⟩ :=
  c4_teapot_bypass _ _ rfl

/-- Claim C7: when the store is unreachable or absent during a lookup (all
validations passed), the handler replies 500 with `Database not found` for a
missing database file and `Database error` for a SQLite failure, and neither
reply equals the 404 no-data reply. -/
theorem c7_store_unavailable (fields : List (String × JVal)) (z m : String)
    (hcof : fields.lookup "coffee" ≠ some (JVal.jstr "teapot"))
    (hzs : fields.lookup "zip" = some (.jstr z)) (hok : validate_zip z = true)
    (hms : fields.lookup "measure_name" = some (.jstr m))
    (hmok : validate_measure m = true) :
    county_data (some (.jobj fields)) (.error .fileNotFound) = dbNotFoundResp ∧
    county_data (some (.jobj fields)) (.error .sqliteError) = dbErrorResp ∧
    dbNotFoundResp ≠ noDataResp ∧ dbErrorResp ≠ noDataResp := by
  have hne : fields.isEmpty = false := lookup_isEmpty_false hzs
  refine ⟨?_, ?_, ?_, ?_⟩
  · rw [county_data_no_coffee hne hcof, handle_params_valid hzs hok hms hmok]
  · rw [county_data_no_coffee hne hcof, handle_params_valid hzs hok hms hmok]
  · simp [dbNotFoundResp, noDataResp, errBody]
  · simp [dbErrorResp, noDataResp, errBody]

/-- Witness for C7 at a fully valid concrete payload. -/
theorem c7_store_unavailable_witness :
    county_data (some (.jobj [("zip", .jstr "02138"),
        ("measure_name", .jstr "Adult obesity")])) (.error .fileNotFound)
      = dbNotFoundResp ∧
    county_data (some (.jobj [("zip", .jstr "02138"),
        ("measure_name", .jstr "Adult obesity")])) (.error .sqliteError)
      = dbErrorResp ∧
    dbNotFoundResp ≠ noDataResp ∧ dbErrorResp ≠ noDataResp :=
  c7_store_unavailable _ "02138" "Adult obesity" (by simp [List.lookup])
    rfl (by decide) rfl (by decide)

/-- Claim C8: the ZIP resolution uses at most one county: with no matching
`zip_county` row the query returns the empty list (not an error), and with one
or more matching rows only the first row supplies the county code used for the
health-record lookup. -/
theorem c8_first_match (db : DB) (zip m : String) :
    (db.zip_county.filter (fun r => r.zip == zip) = [] →
      query_county_health_data db zip m = []) ∧
    (∀ r rest, db.zip_county.filter (fun r => r.zip == zip) = r :: rest →
      query_county_health_data db zip m =
        db.county_health_rankings.filter
          (fun h => h.fipscode == r.county_code && h.measure_name == m)) := by
  constructor
  · intro h
    unfold query_county_health_data
    rw [find?_eq_head?_filter, h]
    rfl
  · intro r rest h
    unfold query_county_health_data
    rw [find?_eq_head?_filter, h]
    rfl

/-- Witness for C8: in a store where ZIP 11111 is mapped to both county `AAA`
and county `BBB`, the query returns only the rows of the first county. -/
theorem c8_first_match_witness :
    query_county_health_data dupDB "11111" "Adult obesity" = [dupHealthRowA] :=
  (c8_first_match dupDB "11111" "Adult obesity").2 ⟨"11111", "AAA"⟩
    [⟨"11111", "BBB"⟩] rfl

/-- Claim C9: the handler is a stateless read: in a served request sequence
against one store, any two positions holding identical request bodies receive
identical responses. -/
theorem c9_idempotent (store : Except StoreFailure DB)
    (bodies : List (Option JVal)) (i j : Nat)
    (h : bodies[i]? = bodies[j]?) :
    (serve store bodies)[i]? = (serve store bodies)[j]? := by
  rw [serve_getElem?, serve_getElem?, h]

/-- Witness for C9: two identical bodies in one sequence get equal replies. -/
theorem c9_idempotent_witness :
    (serve (.ok sampleDB)
      [some (.jobj [("zip", .jstr "02138"), ("measure_name", .jstr "Adult obesity")]),
       some (.jobj [("zip", .jstr "02138"), ("measure_name", .jstr "Adult obesity")])])[0]?
    = (serve (.ok sampleDB)
      [some (.jobj [("zip", .jstr "02138"), ("measure_name", .jstr "Adult obesity")]),
       some (.jobj [("zip", .jstr "02138"), ("measure_name", .jstr "Adult obesity")])])[1]? :=
  c9_idempotent _ _ 0 1 rfl

/-- Counterexample to claim C2: a well-formed 5-digit zip absent from the
store, paired with a non-member measure name, is answered with the
`Invalid measure_name` 404 body, not the `NotFound` body the claim requires
regardless of measure validity. -/
theorem c2_notfound_cex :
    county_data (some (.jobj [("zip", .jstr "00000"),
        ("measure_name", .jstr "Not A Measure")])) (.ok sampleDB)
      = invalidMeasureResp ∧
    validate_zip "00000" = true ∧
    (∀ r ∈ sampleDB.zip_county, r.zip ≠ "00000") ∧
    invalidMeasureResp ≠ noDataResp := by
  refine ⟨rfl, by decide, by decide, ?_⟩
  simp [invalidMeasureResp, noDataResp, errBody]

/-- Claim C2 (amended): for a well-formed 5-digit zip absent from ZipCounty,
the handler returns the `NotFound` reply when `measure_name` is a member of
the valid measure set, and the `Invalid measure_name` 404 reply when it is
not: the measure check runs before the store lookup, after the zip format
check. -/
theorem c2_notfound_amended (fields : List (String × JVal)) (db : DB)
    (z m : String)
    (hcof : fields.lookup "coffee" ≠ some (JVal.jstr "teapot"))
    (hzs : fields.lookup "zip" = some (.jstr z))
    (hlen : z.length = 5) (hdig : z.data.all isAsciiDigit = true)
    (hnot : ∀ r ∈ db.zip_county, r.zip ≠ z)
    (hms : fields.lookup "measure_name" = some (.jstr m)) :
    (validate_measure m = true →
      county_data (some (.jobj fields)) (.ok db) = noDataResp) ∧
    (validate_measure m = false → (m != "") = true →
      county_data (some (.jobj fields)) (.ok db) = invalidMeasureResp) := by
  have hne : fields.isEmpty = false := lookup_isEmpty_false hzs
  have hok : validate_zip z = true := validate_zip_of_ascii5 hlen hdig
  constructor
  · intro hmok
    rw [county_data_no_coffee hne hcof, handle_params_valid hzs hok hms hmok]
    have hfind : db.zip_county.find? (fun r => r.zip == z) = none := by
      rw [List.find?_eq_none]
      intro r hr
      simpa using hnot r hr
    simp [query_county_health_data, hfind]
  · intro hbadm hmne
    rw [county_data_no_coffee hne hcof,
      handle_params_invalid_measure hzs hok hms hmne hbadm]

/-- Witness for the amended C2 at a concrete absent zip with a valid
measure. -/
theorem c2_notfound_amended_witness :
    county_data (some (.jobj [("zip", .jstr "00000"),
        ("measure_name", .jstr "Adult obesity")])) (.ok sampleDB) = noDataResp :=
  (c2_notfound_amended [("zip", .jstr "00000"),
      ("measure_name", .jstr "Adult obesity")] sampleDB "00000" "Adult obesity"
    (by simp [List.lookup]) rfl rfl (by decide) (by decide) rfl).1 (by decide)

/-- Counterexample to claim C6: a GET to `/county_data` is answered with the
body `{"error": "Method not allowed", "status": 404}` produced by the 405
handler, not the `Endpoint not found` body the claim requires. -/
theorem c6_routing_cex :
    app_dispatch "GET" "/county_data" none (.ok sampleDB) = methodNotAllowedResp ∧
    methodNotAllowedResp ≠ endpointNotFoundResp := by
  refine ⟨rfl, ?_⟩
  simp [methodNotAllowedResp, endpointNotFoundResp, errBody]

/-- Claim C6 (amended): a request to an unknown path gets HTTP 404 with body
`Endpoint not found`; a request to `/county_data` with a method other than
POST gets HTTP 404 with body `Method not allowed` (the 405 handler also
replies with status field 404). -/
theorem c6_routing_amended (method path : String) (body : Option JVal)
    (store : Except StoreFailure DB) :
    (path ≠ "/county_data" → path ≠ "/" →
      app_dispatch method path body store = endpointNotFoundResp) ∧
    (method ≠ "POST" →
      app_dispatch method "/county_data" body store = methodNotAllowedResp) ∧
    methodNotAllowedResp.status = 404 := by
  refine ⟨?_, ?_, rfl⟩
  · intro h1 h2
    simp [app_dispatch, h1, h2]
  · intro h
    simp [app_dispatch, h]

/-- Witness for the amended C6 at a concrete unknown path and a concrete
wrong method. -/
theorem c6_routing_amended_witness :
    app_dispatch "POST" "/nope" none (.ok sampleDB) = endpointNotFoundResp ∧
    app_dispatch "GET" "/county_data" none (.ok sampleDB) = methodNotAllowedResp :=
  ⟨(c6_routing_amended "POST" "/nope" none (.ok sampleDB)).1
      (by decide) (by decide),
   (c6_routing_amended "GET" "/county_data" none (.ok sampleDB)).2.1 (by decide)⟩

/-- Counterexample to claim C10: a payload whose `zip` is the JSON number
12345 but whose `measure_name` is missing is answered with the 400
missing-parameter reply, not the 500 internal-error reply the claim requires
for every payload with a truthy non-string zip. -/
theorem c10_nonstring_zip_cex :
    county_data (some (.jobj [("zip", .jnum 12345)])) (.ok sampleDB)
      = missingMeasureResp ∧
    missingMeasureResp ≠ internalErrorResp := by
  refine ⟨rfl, ?_⟩
  simp [missingMeasureResp, internalErrorResp, errBody]

/-- Claim C10 (amended): a JSON-object payload whose `zip` is present, truthy
and not a string, whose `measure_name` is present and truthy, and which does
not trigger the teapot bypass, is answered with HTTP 500
`{"error": "Internal server error", "status": 500}`: the format check calls a
string method on the zip value and the exception is caught only by the
generic handler. -/
theorem c10_nonstring_zip_amended (fields : List (String × JVal))
    (store : Except StoreFailure DB) (v : JVal)
    (hcof : fields.lookup "coffee" ≠ some (JVal.jstr "teapot"))
    (hzv : fields.lookup "zip" = some v) (htr : truthy v = true)
    (hns : ∀ s, v ≠ JVal.jstr s)
    (hmt : truthyOpt (fields.lookup "measure_name") = true) :
    county_data (some (.jobj fields)) store = internalErrorResp := by
  have hne : fields.isEmpty = false := lookup_isEmpty_false hzv
  rw [county_data_no_coffee hne hcof,
    handle_params_zip_nonstring hzv htr hns hmt]

/-- Witness for the amended C10 at the concrete numeric zip 12345. -/
theorem c10_nonstring_zip_amended_witness :
    county_data (some (.jobj [("zip", .jnum 12345),
        ("measure_name", .jstr "Adult obesity")])) (.ok sampleDB)
      = internalErrorResp :=
  c10_nonstring_zip_amended _ _ (.jnum 12345) (by simp [List.lookup]) rfl rfl
    (by intro s h; cases h) rfl

/-- Counterexample to claim C5: a body that parses to the JSON array `[1]`
(parseable JSON, but not a JSON object) is answered with the 500
internal-error reply, not the 400 `Request must contain JSON data` reply the
claim requires, because `request.json.get` raises on a list. -/
theorem c5_malformed_cex :
    county_data (some (.jarr [.jnum 1])) (.ok sampleDB) = internalErrorResp ∧
    internalErrorResp.status = 500 ∧
    internalErrorResp ≠ malformedResp := by
  refine ⟨rfl, rfl, ?_⟩
  simp [internalErrorResp, malformedResp, errBody]

/-- Claim C5 (amended): a missing or unparseable body, and any body parsing
to a falsy JSON value (empty object, empty array, empty string, zero, false,
null), is answered with HTTP 400 `{"error": "Request must contain JSON data",
"status": 400}`; a body parsing to a truthy value that is not a JSON object
is answered with the 500 internal-error reply instead. -/
theorem c5_malformed_amended :
    (∀ store : Except StoreFailure DB, county_data none store = malformedResp) ∧
    (∀ (v : JVal) (store : Except StoreFailure DB), truthy v = false →
      county_data (some v) store = malformedResp) ∧
    (∀ (v : JVal) (store : Except StoreFailure DB), truthy v = true →
      (∀ fs, v ≠ JVal.jobj fs) →
      county_data (some v) store = internalErrorResp) := by
  refine ⟨fun store => rfl, ?_, ?_⟩
  · intro v store hf
    rcases v with s | n | b | _ | xs | fs
    · simp [county_data, hf]
    · simp [county_data, hf]
    · simp [county_data, hf]
    · rfl
    · simp [county_data, hf]
    · have : fs.isEmpty = true := by simpa [truthy] using hf
      simp [county_data, this]
  · intro v store ht hobj
    rcases v with s | n | b | _ | xs | fs
    · simp [county_data, ht]
    · simp [county_data, ht]
    · simp [county_data, ht]
    · simp [truthy] at ht
    · simp [county_data, ht]
    · exact absurd rfl (hobj fs)

/-- Witness for the amended C5 at three concrete bodies: an empty-object
body, a string body, and a missing body. -/
theorem c5_malformed_amended_witness :
    county_data none (.ok sampleDB) = malformedResp ∧
    county_data (some (.jobj [])) (.ok sampleDB) = malformedResp ∧
    county_data (some (.jstr "hello")) (.ok sampleDB) = internalErrorResp :=
  ⟨c5_malformed_amended.1 (.ok sampleDB),
   c5_malformed_amended.2.1 (.jobj []) (.ok sampleDB) rfl,
   c5_malformed_amended.2.2 (.jstr "hello") (.ok sampleDB) rfl
     (by intro fs h; cases h)⟩

/-- Counterexample to claim C1: the payload `{"zip": 12345, "measure_name":
"; DROP TABLE zip_county; --"}` has a measure_name string full of SQL
metacharacters, yet is answered with the 500 internal-error reply (the
non-string zip makes the format check raise), not one of the 400/404 error
shapes the claim requires for every such request. -/
theorem c1_injection_cex :
    county_data (some (.jobj [("zip", .jnum 12345),
        ("measure_name", .jstr "; DROP TABLE zip_county; --")])) (.ok sampleDB)
      = internalErrorResp ∧
    hasSqlMeta "; DROP TABLE zip_county; --" = true ∧
    internalErrorResp.status = 500 := by
  exact ⟨rfl, by decide, rfl⟩

/-- Claim C1 (amended): for a JSON-object payload whose `zip` and
`measure_name` values are strings (when present), at least one of which
contains an SQL metacharacter or statement separator, the reply status is
never 500 and lies in 400/404/418, with 418 only for the teapot bypass;
moreover the handler leaves the store unchanged, so any subsequent request is
answered exactly as if served alone. -/
theorem c1_injection_amended (fields : List (String × JVal))
    (store : Except StoreFailure DB)
    (hz : ∀ v, fields.lookup "zip" = some v → ∃ z, v = JVal.jstr z)
    (hm : ∀ v, fields.lookup "measure_name" = some v → ∃ m, v = JVal.jstr m)
    (hmeta : (∃ z, fields.lookup "zip" = some (JVal.jstr z) ∧ hasSqlMeta z = true) ∨
      (∃ m, fields.lookup "measure_name" = some (JVal.jstr m) ∧ hasSqlMeta m = true)) :
    (county_data (some (.jobj fields)) store).status ≠ 500 ∧
    (county_data (some (.jobj fields)) store).status ∈ [400, 404, 418] ∧
    (fields.lookup "coffee" ≠ some (JVal.jstr "teapot") →
      (county_data (some (.jobj fields)) store).status ∈ [400, 404]) ∧
    (county_data_step (some (.jobj fields)) store).2 = store ∧
    (∀ b₂, serve store [some (.jobj fields), b₂]
        = [county_data (some (.jobj fields)) store, county_data b₂ store]) := by
  have hne : fields.isEmpty = false := by
    rcases hmeta with ⟨z, hzl, _⟩ | ⟨m, hml, _⟩
    · exact lookup_isEmpty_false hzl
    · exact lookup_isEmpty_false hml
  by_cases hcof : fields.lookup "coffee" = some (JVal.jstr "teapot")
  · have hresp : county_data (some (.jobj fields)) store = teapotResp :=
      county_data_coffee hcof
    refine ⟨?_, ?_, ?_, rfl, fun b₂ => rfl⟩
    · rw [hresp]; decide
    · rw [hresp]; decide
    · intro hc; exact absurd hcof hc
  · have key : county_data (some (.jobj fields)) store = missingZipResp ∨
        county_data (some (.jobj fields)) store = missingMeasureResp ∨
        county_data (some (.jobj fields)) store = invalidZipResp ∨
        county_data (some (.jobj fields)) store = invalidMeasureResp := by
      rw [county_data_no_coffee hne hcof]
      cases hzl : fields.lookup "zip" with
      | none =>
        exact Or.inl (handle_params_missing_zip (by rw [hzl]; rfl))
      | some v =>
        obtain ⟨z, rfl⟩ := hz v hzl
        by_cases hze : z = ""
        · subst hze
          exact Or.inl (handle_params_missing_zip (by rw [hzl]; rfl))
        · have hzt : (z != "") = true := by simpa using hze
          have hztr : truthyOpt (fields.lookup "zip") = true := by
            rw [hzl]; simpa [truthyOpt, truthy] using hze
          cases hml : fields.lookup "measure_name" with
          | none =>
            exact Or.inr (Or.inl
              (handle_params_missing_measure hztr (by rw [hml]; rfl)))
          | some w =>
            obtain ⟨m, rfl⟩ := hm w hml
            by_cases hme : m = ""
            · subst hme
              exact Or.inr (Or.inl
                (handle_params_missing_measure hztr (by rw [hml]; rfl)))
            · have hmt : (m != "") = true := by simpa using hme
              have hmtr : truthyOpt (fields.lookup "measure_name") = true := by
                rw [hml]; simpa [truthyOpt, truthy] using hme
              rcases hmeta with ⟨z', hz', hmz⟩ | ⟨m', hm', hmm⟩
              · have hzz : z' = z := by
                  rw [hzl] at hz'
                  exact (JVal.jstr.inj (Option.some.inj hz')).symm
                rw [hzz] at hmz
                exact Or.inr (Or.inr (Or.inl
                  (handle_params_invalid_zip hzl hzt hmtr
                    (validate_zip_of_meta hmz))))
              · have hmm2 : m' = m := by
                  rw [hml] at hm'
                  exact (JVal.jstr.inj (Option.some.inj hm')).symm
                rw [hmm2] at hmm
                by_cases hzok : validate_zip z = true
                · have hbadm : validate_measure m = false := by
                    rw [Bool.eq_false_iff]
                    intro hmem
                    have hno := valid_measures_no_meta m (validate_measure_mem hmem)
                    rw [hmm] at hno
                    exact Bool.noConfusion hno
                  exact Or.inr (Or.inr (Or.inr
                    (handle_params_invalid_measure hzl hzok hml hmt hbadm)))
                · have hbad : validate_zip z = false := by
                    rw [Bool.eq_false_iff]; exact hzok
                  exact Or.inr (Or.inr (Or.inl
                    (handle_params_invalid_zip hzl hzt hmtr hbad)))
    refine ⟨?_, ?_, ?_, rfl, fun b₂ => rfl⟩
    · rcases key with h | h | h | h <;> rw [h] <;> decide
    · rcases key with h | h | h | h <;> rw [h] <;> decide
    · intro _
      rcases key with h | h | h | h <;> rw [h] <;> decide

/-- Witness for the amended C1: the injection payload `injFields` is answered
with a 400/404 error shape, never 500. -/
theorem c1_injection_amended_witness :
    (county_data (some (.jobj injFields)) (.ok sampleDB)).status ≠ 500 ∧
    (county_data (some (.jobj injFields)) (.ok sampleDB)).status ∈ [400, 404] := by
  have h := c1_injection_amended injFields (.ok sampleDB)
    (by
      intro v hv
      rw [show List.lookup "zip" injFields
          = some (JVal.jstr "; DROP TABLE zip_county; --") from rfl] at hv
      exact ⟨_, (Option.some.inj hv).symm⟩)
    (by
      intro v hv
      rw [show List.lookup "measure_name" injFields
          = some (JVal.jstr "Adult obesity") from rfl] at hv
      exact ⟨_, (Option.some.inj hv).symm⟩)
    (Or.inl ⟨"; DROP TABLE zip_county; --", rfl, by decide⟩)
  exact ⟨h.1, h.2.2.1 (by simp [injFields, List.lookup])⟩

/-- Counterexample to claim C3: the five-character string of superscript-two
characters is not a string of ASCII decimal digits, yet it passes the format
check (Python `str.isdigit` accepts Unicode digits), the store is consulted
(the reply depends on the store), and the reply is the no-data 404, not the
`Invalid zip code format` reply. -/
theorem c3_zip_format_cex :
    validate_zip "²²²²²" = true ∧
    "²²²²²".data.all isAsciiDigit = false ∧
    county_data (some (.jobj [("zip", .jstr "²²²²²"),
        ("measure_name", .jstr "Adult obesity")])) (.ok sampleDB) = noDataResp ∧
    county_data (some (.jobj [("zip", .jstr "²²²²²"),
        ("measure_name", .jstr "Adult obesity")])) (.error .fileNotFound)
      = dbNotFoundResp ∧
    noDataResp ≠ invalidZipResp := by
  refine ⟨by decide, by decide, rfl, rfl, ?_⟩
  simp [noDataResp, invalidZipResp, errBody]

/-- Claim C3 (amended): every string of five ASCII decimal digits passes the
zip format check; and a zip string that fails Python `str.isdigit`-and-length
for an ASCII reason (length other than five, or an ASCII character that is
not a decimal digit) is answered, independently of the store and so without
any store access, with the missing-parameter 400 replies or the
`Invalid zip code format` 404 reply; some non-ASCII digit strings (such as
superscript digits) also pass the check. -/
theorem c3_zip_format_amended :
    (∀ z : String, z.length = 5 → z.data.all isAsciiDigit = true →
      validate_zip z = true) ∧
    (∀ (fields : List (String × JVal)) (s₁ s₂ : Except StoreFailure DB)
        (z : String),
      fields.lookup "coffee" ≠ some (JVal.jstr "teapot") →
      fields.lookup "zip" = some (JVal.jstr z) →
      (z.length ≠ 5 ∨ ∃ c ∈ z.data, c.toNat < 128 ∧ isAsciiDigit c = false) →
      county_data (some (.jobj fields)) s₁ = county_data (some (.jobj fields)) s₂ ∧
      (county_data (some (.jobj fields)) s₁ = missingZipResp ∨
       county_data (some (.jobj fields)) s₁ = missingMeasureResp ∨
       county_data (some (.jobj fields)) s₁ = invalidZipResp)) := by
  constructor
  · exact fun z hlen hdig => validate_zip_of_ascii5 hlen hdig
  · intro fields s₁ s₂ z hcof hzs hbadhyp
    have hne : fields.isEmpty = false := lookup_isEmpty_false hzs
    have hbad : validate_zip z = false := by
      rcases hbadhyp with hl | ⟨c, hc, hlt, hnd⟩
      · exact validate_zip_false_of_len hl
      · exact validate_zip_false_of_ascii_nondigit hc hlt hnd
    by_cases hze : z = ""
    · subst hze
      have hall : ∀ s : Except StoreFailure DB,
          county_data (some (.jobj fields)) s = missingZipResp := fun s => by
        rw [county_data_no_coffee hne hcof]
        exact handle_params_missing_zip (by rw [hzs]; rfl)
      exact ⟨(hall s₁).trans (hall s₂).symm, Or.inl (hall s₁)⟩
    · have hzt : (z != "") = true := by simpa using hze
      by_cases hmt : truthyOpt (fields.lookup "measure_name") = true
      · have hall : ∀ s : Except StoreFailure DB,
            county_data (some (.jobj fields)) s = invalidZipResp := fun s => by
          rw [county_data_no_coffee hne hcof]
          exact handle_params_invalid_zip hzs hzt hmt hbad
        exact ⟨(hall s₁).trans (hall s₂).symm, Or.inr (Or.inr (hall s₁))⟩
      · have hmf : truthyOpt (fields.lookup "measure_name") = false := by
          rw [Bool.eq_false_iff]; exact hmt
        have hztr : truthyOpt (fields.lookup "zip") = true := by
          rw [hzs]; simpa [truthyOpt, truthy] using hze
        have hall : ∀ s : Except StoreFailure DB,
            county_data (some (.jobj fields)) s = missingMeasureResp := fun s => by
          rw [county_data_no_coffee hne hcof]
          exact handle_params_missing_measure hztr hmf
        exact ⟨(hall s₁).trans (hall s₂).symm, Or.inr (Or.inl (hall s₁))⟩

/-- Witness for the amended C3: a concrete five-ASCII-digit string passes,
and a concrete four-character zip gets a store-independent reply. -/
theorem c3_zip_format_amended_witness :
    validate_zip "12345" = true ∧
    county_data (some (.jobj [("zip", .jstr "1234")])) (.ok sampleDB)
      = county_data (some (.jobj [("zip", .jstr "1234")])) (.error .fileNotFound) := by
  constructor
  · exact c3_zip_format_amended.1 "12345" rfl (by decide)
  · exact (c3_zip_format_amended.2 [("zip", .jstr "1234")] (.ok sampleDB)
      (.error .fileNotFound) "1234" (by simp [List.lookup]) rfl
      (Or.inl (by decide))).1
